import Mathlib

/-!
File preview modal (`web/assets/js/file/file-preview.js`).

A shallow embedding of the two Bootstrap modal handlers registered by
`file-preview.js`, and the properties of the preview markup they write.

Modelling conventions:

* A JavaScript string is a Lean `String`.  The only string operations the
  script uses are concatenation (`+` and template literals), strict equality
  with a literal and `startsWith` with an ASCII literal; on these a sequence
  of code points behaves like the sequence of UTF-16 code units.
* `getAttribute` returns a string or `null`; this is `Option String`.
* The page state is what the script writes: the markup last assigned to
  `previewContainer.innerHTML` and the text last assigned to
  `modalTitle.textContent`.  The three elements looked up by id are assumed
  to exist.
* A handler either completes normally or throws a `TypeError`; DOM writes
  made before the throw stay in the page.
-/

namespace FilePreview

/-! ## Data model -/

/-- The element in `event.relatedTarget`, reduced to the two attributes the handler reads. -/
structure Button where
  /-- Result of `getAttribute('data-file-url')`, `none` for `null`. -/
  dataFileUrl : Option String
  /-- Result of `getAttribute('data-file-type')`, `none` for `null`. -/
  dataFileType : Option String
  deriving DecidableEq

/-- The part of the document the handlers write. -/
structure Page where
  /-- Markup last assigned to `previewContainer.innerHTML`. -/
  previewContainer : String
  /-- Text last assigned to `modalTitle.textContent`. -/
  modalTitle : String
  deriving DecidableEq

/-- How a handler finished. -/
inductive Completion where
  | normal
  | typeError
  deriving DecidableEq

/-! ## String primitives -/

/-- JavaScript `ToString` on an attribute value, as applied by `+` and by a
template literal: `null` becomes the text `null`. -/
def toJSString : Option String → String
  | some s => s
  | none => "null"

/-- The method `String.prototype.startsWith(searchString)`. -/
def startsWith (s searchString : String) : Bool :=
  searchString.data.isPrefixOf s.data

/-! ## The handlers -/

/-- The `if / else if / else` chain of the `show.bs.modal` handler (lines 20-51):
the markup chosen for `previewContent`.  `fileType` is a string here, since
the first test has already been evaluated on it. -/
def previewContent (fileURL : Option String) (fileType : String) : String :=
  if startsWith fileType "image/" then
    "<img src=\"" ++ toJSString fileURL ++ "\" class=\"img-fluid rounded\" alt=\"Pré-visualização da Imagem\" style=\"max-height: 100%; max-width: 100%;\">"
  else if fileType = "application/pdf" then
    "\n            <object \n                data=\"" ++ toJSString fileURL ++ "\" \n                type=\"application/pdf\" \n                width=\"100%\" \n                height=\"100%\"\n                style=\"border: none;\">\n                <p>O seu navegador não suporta a visualização de PDFs. \n                <a href=\"" ++ toJSString fileURL ++ "\" target=\"_blank\">Clique aqui para baixar.</a></p>\n            </object>"
  else if startsWith fileType "video/" then
    "\n            <video controls width=\"100%\" height=\"auto\" style=\"max-height: 100%;\">\n                <source src=\"" ++ toJSString fileURL ++ "\" type=\"" ++ fileType ++ "\">\n                Seu navegador não suporta o elemento de vídeo.\n            </video>"
  else
    "\n            <p class=\"text-danger mt-5\">\n                Não é possível exibir o ‘preview’ nativamente para o tipo de arquivo: \n                <strong>" ++ fileType ++ "</strong>.\n            </p>\n            <a href=\"" ++ toJSString fileURL ++ "\" target=\"_blank\" class=\"btn btn-success mt-3\">Tentar Abrir em Nova Aba</a>"

/-- The `show.bs.modal` handler (lines 5-55).  `relatedTarget` is `none` when the
event carries no triggering element. -/
def onShow (relatedTarget : Option Button) (page : Page) : Completion × Page :=
  match relatedTarget with
  | none => (Completion.typeError, page)
  | some button =>
    let fileURL := button.dataFileUrl
    let fileType := button.dataFileType
    let page₁ : Page := { page with previewContainer := "" }
    let page₂ : Page := { page₁ with modalTitle := "Visualizando: " ++ toJSString fileType }
    match fileType with
    | none => (Completion.typeError, page₂)
    | some ty =>
      (Completion.normal, { page₂ with previewContainer := previewContent fileURL ty })

/-- The `hide.bs.modal` handler (lines 57-59). -/
def onHide (page : Page) : Completion × Page :=
  (Completion.normal,
    { page with previewContainer := "<p class=\"text-muted mt-5\">Carregando preview...</p>" })

/-- A modal lifecycle event delivered to the page. -/
inductive ModalEvent where
  | showBsModal (relatedTarget : Option Button)
  | hideBsModal
  deriving DecidableEq

/-- Dispatch of one event to its handler. -/
def handle : ModalEvent → Page → Completion × Page
  | ModalEvent.showBsModal relatedTarget, page => onShow relatedTarget page
  | ModalEvent.hideBsModal, page => onHide page

/-- The page after a sequence of events, delivered one at a time by the event
loop; a handler that throws ends only its own run. -/
def runEvents : List ModalEvent → Page → Page
  | [], page => page
  | e :: es, page => runEvents es (handle e page).2

/-- The button carrying a URL string and a MIME type string. -/
def buttonOf (fileURL fileType : String) : Button :=
  { dataFileUrl := some fileURL, dataFileType := some fileType }

/-! ## Specification-side definitions

The definitions below do not come from the script.  They state, in the words
of the specification, the notions its properties are compared against. -/

/-- The three kinds of preview the handler tests for. -/
inductive PreviewKind where
  | image
  | pdf
  | video
  deriving DecidableEq

/-- The condition tested for a kind: prefix `image/`, exactly `application/pdf`,
prefix `video/`. -/
def PreviewKind.test : PreviewKind → String → Bool
  | PreviewKind.image, fileType => startsWith fileType "image/"
  | PreviewKind.pdf, fileType => decide (fileType = "application/pdf")
  | PreviewKind.video, fileType => startsWith fileType "video/"

/-- The markup rendered for a kind. -/
def PreviewKind.markup : PreviewKind → Option String → String → String
  | PreviewKind.image, fileURL, _ =>
    "<img src=\"" ++ toJSString fileURL ++ "\" class=\"img-fluid rounded\" alt=\"Pré-visualização da Imagem\" style=\"max-height: 100%; max-width: 100%;\">"
  | PreviewKind.pdf, fileURL, _ =>
    "\n            <object \n                data=\"" ++ toJSString fileURL ++ "\" \n                type=\"application/pdf\" \n                width=\"100%\" \n                height=\"100%\"\n                style=\"border: none;\">\n                <p>O seu navegador não suporta a visualização de PDFs. \n                <a href=\"" ++ toJSString fileURL ++ "\" target=\"_blank\">Clique aqui para baixar.</a></p>\n            </object>"
  | PreviewKind.video, fileURL, fileType =>
    "\n            <video controls width=\"100%\" height=\"auto\" style=\"max-height: 100%;\">\n                <source src=\"" ++ toJSString fileURL ++ "\" type=\"" ++ fileType ++ "\">\n                Seu navegador não suporta o elemento de vídeo.\n            </video>"

/-- The markup rendered when no kind matches. -/
def fallbackMarkup (fileURL : Option String) (fileType : String) : String :=
  "\n            <p class=\"text-danger mt-5\">\n                Não é possível exibir o ‘preview’ nativamente para o tipo de arquivo: \n                <strong>" ++ fileType ++ "</strong>.\n            </p>\n            <a href=\"" ++ toJSString fileURL ++ "\" target=\"_blank\" class=\"btn btn-success mt-3\">Tentar Abrir em Nova Aba</a>"

/-- A dispatch that tests the kinds in the given order: the first kind whose
test holds is rendered, and the fallback when none does. -/
def dispatchInOrder : List PreviewKind → Option String → String → String
  | [], fileURL, fileType => fallbackMarkup fileURL fileType
  | k :: ks, fileURL, fileType =>
    if k.test fileType then k.markup fileURL fileType else dispatchInOrder ks fileURL fileType

/-- Characters allowed in a MIME type or subtype name (RFC 6838,
`restricted-name-chars`). -/
def isTokenChar (c : Char) : Bool :=
  c.isAlphanum || "!#$&-^_.+".data.contains c

/-- A non-empty subtype token. -/
def isSubtypeToken (s : List Char) : Bool :=
  !s.isEmpty && s.all isTokenChar

/-- A well-formed MIME type of a supported kind: `image/` followed by a
non-empty subtype token, `application/pdf`, or `video/` followed by a
non-empty subtype token. -/
def wellFormedSupported (fileType : String) : Bool :=
  ("image/".data.isPrefixOf fileType.data && isSubtypeToken (fileType.data.drop 6)) ||
  decide (fileType = "application/pdf") ||
  ("video/".data.isPrefixOf fileType.data && isSubtypeToken (fileType.data.drop 6))

/-- The double quote character. -/
def dquote : Char := Char.ofNat 34

/-- The single quote character. -/
def squote : Char := Char.ofNat 39

/-- The text that follows the first occurrence of `marker`, if there is one. -/
def afterFirst (marker : List Char) : List Char → Option (List Char)
  | [] => if marker.isPrefixOf [] then some [] else none
  | c :: cs =>
    if marker.isPrefixOf (c :: cs) then some ((c :: cs).drop marker.length)
    else afterFirst marker cs

/-- The text up to the next double quote, if there is one. -/
def upToQuote : List Char → Option (List Char)
  | [] => none
  | c :: cs => if c = dquote then some [] else (upToQuote cs).map (fun v => c :: v)

/-- The value of the `src` attribute as delimited in a piece of markup: the text
between the first `src="` and the next double quote. -/
def srcAttribute (content : String) : Option String :=
  ((afterFirst "src=\"".data content.data).bind upToQuote).map String.mk

/-- A start or end tag read from markup: its name and its attributes in the
order written, each with the raw text of its value. -/
structure Tag where
  name : String
  attrs : List (String × String)
  deriving DecidableEq

/-- Where the reader of markup stands: in text, or at some point of a tag. -/
inductive ScanMode where
  | text
  | tagOpen
  | tagName
  | gap
  | attrName
  | afterName
  | beforeValue
  | valueDq
  | valueSq
  | valueUq
  deriving DecidableEq

/-- The reader of markup: the tags completed so far, and the name, attributes,
attribute name and attribute value of the tag being read. -/
structure Scan where
  mode : ScanMode
  tags : List Tag
  tag : List Char
  attrs : List (String × String)
  attr : List Char
  value : List Char
  deriving DecidableEq

/-- The reader before the first character. -/
def Scan.start : Scan :=
  { mode := ScanMode.text, tags := [], tag := [], attrs := [], attr := [], value := [] }

/-- Close the attribute being read and add it to the tag being read. -/
def Scan.pushAttr (s : Scan) : Scan :=
  { s with attrs := s.attrs ++ [(String.mk s.attr, String.mk s.value)], attr := [], value := [] }

/-- Close the tag being read and return to text. -/
def Scan.emit (s : Scan) : Scan :=
  { s with mode := ScanMode.text, tags := s.tags ++ [{ name := String.mk s.tag, attrs := s.attrs }],
           tag := [], attrs := [] }

/-- One character of markup, read the way an HTML tokenizer delimits tags and
attributes: `<` followed by a letter or `/` opens a tag, white space separates
attributes, `=` introduces a value, a value that starts with a double (single)
quote runs to the next double (single) quote, any other value runs to white
space or `>`, and `>` outside a quoted value closes the tag.  Names are put in
lower case; character references are not decoded. -/
def scanStep (s : Scan) (c : Char) : Scan :=
  match s.mode with
  | ScanMode.text => if c = '<' then { s with mode := ScanMode.tagOpen } else s
  | ScanMode.tagOpen =>
    if c.isAlpha || c = '/' then { s with mode := ScanMode.tagName, tag := [c.toLower] }
    else if c = '<' then s
    else { s with mode := ScanMode.text }
  | ScanMode.tagName =>
    if c.isWhitespace || c = '/' then { s with mode := ScanMode.gap }
    else if c = '>' then s.emit
    else { s with tag := s.tag ++ [c.toLower] }
  | ScanMode.gap =>
    if c.isWhitespace || c = '/' then s
    else if c = '>' then s.emit
    else { s with mode := ScanMode.attrName, attr := [c.toLower] }
  | ScanMode.attrName =>
    if c.isWhitespace then { s with mode := ScanMode.afterName }
    else if c = '=' then { s with mode := ScanMode.beforeValue }
    else if c = '>' then s.pushAttr.emit
    else if c = '/' then { s.pushAttr with mode := ScanMode.gap }
    else { s with attr := s.attr ++ [c.toLower] }
  | ScanMode.afterName =>
    if c.isWhitespace then s
    else if c = '=' then { s with mode := ScanMode.beforeValue }
    else if c = '>' then s.pushAttr.emit
    else if c = '/' then { s.pushAttr with mode := ScanMode.gap }
    else { s.pushAttr with mode := ScanMode.attrName, attr := [c.toLower] }
  | ScanMode.beforeValue =>
    if c.isWhitespace then s
    else if c = dquote then { s with mode := ScanMode.valueDq }
    else if c = squote then { s with mode := ScanMode.valueSq }
    else if c = '>' then s.pushAttr.emit
    else { s with mode := ScanMode.valueUq, value := [c] }
  | ScanMode.valueDq =>
    if c = dquote then { s.pushAttr with mode := ScanMode.gap }
    else { s with value := s.value ++ [c] }
  | ScanMode.valueSq =>
    if c = squote then { s.pushAttr with mode := ScanMode.gap }
    else { s with value := s.value ++ [c] }
  | ScanMode.valueUq =>
    if c.isWhitespace then { s.pushAttr with mode := ScanMode.gap }
    else if c = '>' then s.pushAttr.emit
    else { s with value := s.value ++ [c] }

/-- The tags of a piece of markup, in the order written. -/
def markupTags (content : String) : List Tag :=
  (content.data.foldl scanStep Scan.start).tags

/-- The value of attribute `attr` of the first tag named `tag` in the markup;
when the tag writes the attribute more than once, the first one counts. -/
def attributeOf (tag attr : String) (content : String) : Option String :=
  ((markupTags content).find? (fun t => t.name = tag)).bind (fun t => t.attrs.lookup attr)

set_option maxRecDepth 100000

/-! ## Lemmas on the type tests -/

theorem startsWith_iff_append (s p : String) :
    startsWith s p = true ↔ ∃ t : String, s = p ++ t := by
  unfold startsWith
  rw [List.isPrefixOf_iff_prefix]
  constructor
  · rintro ⟨t, ht⟩
    exact ⟨⟨t⟩, String.ext (by simp [ht])⟩
  · rintro ⟨t, rfl⟩
    exact ⟨t.data, by simp⟩

theorem image_not_pdf (ty : String) (h : startsWith ty "image/" = true) :
    ty ≠ "application/pdf" := by
  rintro rfl
  revert h
  decide

theorem video_not_pdf (ty : String) (h : startsWith ty "video/" = true) :
    ty ≠ "application/pdf" := by
  rintro rfl
  revert h
  decide

theorem image_not_video (ty : String) (h : startsWith ty "image/" = true) :
    startsWith ty "video/" = false := by
  cases hv : startsWith ty "video/"
  · rfl
  · obtain ⟨a, rfl⟩ := (startsWith_iff_append _ _).1 h
    obtain ⟨b, hb⟩ := (startsWith_iff_append _ _).1 hv
    have hd := congrArg String.data hb
    simp at hd

theorem video_not_image (ty : String) (h : startsWith ty "video/" = true) :
    startsWith ty "image/" = false := by
  cases hi : startsWith ty "image/"
  · rfl
  · rw [image_not_video ty hi] at h
    exact absurd h (by decide)

theorem pdf_not_image : startsWith "application/pdf" "image/" = false := by decide

/-! ## Lemmas on reading markup -/

theorem upToQuote_append (l r : List Char) :
    upToQuote (l ++ dquote :: r) = some (l.takeWhile (fun c => c != dquote)) := by
  induction l with
  | nil => simp [upToQuote]
  | cons c cs ih =>
    by_cases hc : c = dquote
    · simp [upToQuote, hc]
    · simp [upToQuote, hc, ih]

theorem takeWhile_ne_of_mem (l : List Char) (h : dquote ∈ l) :
    l.takeWhile (fun c => c != dquote) ≠ l := by
  intro heq
  have hall : ∀ c ∈ l.takeWhile (fun c => c != dquote), (c != dquote) = true :=
    fun c hc => @List.mem_takeWhile_imp Char (fun c => c != dquote) l c hc
  rw [heq] at hall
  have := hall dquote h
  simp at this

theorem takeWhile_eq_of_not_mem (l : List Char) (h : dquote ∉ l) :
    l.takeWhile (fun c => c != dquote) = l := by
  induction l with
  | nil => rfl
  | cons c cs ih =>
    have hc : c ≠ dquote := fun e => h (e ▸ List.mem_cons_self c cs)
    have hcs : dquote ∉ cs := fun e => h (List.mem_cons_of_mem c e)
    have hb : (c != dquote) = true := by simpa using hc
    rw [@List.takeWhile_cons_of_pos Char (fun c => c != dquote) c cs hb, ih hcs]

/-- Inside a double-quoted value, characters other than the double quote are
added to the value. -/
theorem scan_valueDq (l : List Char) (tags : List Tag) (tag : List Char)
    (attrs : List (String × String)) (attr value : List Char) (hq : dquote ∉ l) :
    l.foldl scanStep
        { mode := ScanMode.valueDq, tags := tags, tag := tag, attrs := attrs, attr := attr,
          value := value } =
      { mode := ScanMode.valueDq, tags := tags, tag := tag, attrs := attrs, attr := attr,
        value := value ++ l } := by
  induction l generalizing value with
  | nil => simp
  | cons c cs ih =>
    have hc : c ≠ dquote := fun e => hq (e ▸ List.mem_cons_self c cs)
    have hcs : dquote ∉ cs := fun e => hq (List.mem_cons_of_mem c e)
    rw [List.foldl_cons]
    have hstep : scanStep
        { mode := ScanMode.valueDq, tags := tags, tag := tag, attrs := attrs, attr := attr,
          value := value } c =
        { mode := ScanMode.valueDq, tags := tags, tag := tag, attrs := attrs, attr := attr,
          value := value ++ [c] } := by
      simp [scanStep, hc]
    rw [hstep, ih (value ++ [c]) hcs]
    simp

/-- In text, characters other than `<` change nothing. -/
theorem scan_text (l : List Char) (tags : List Tag) (tag : List Char)
    (attrs : List (String × String)) (attr value : List Char) (hl : '<' ∉ l) :
    l.foldl scanStep
        { mode := ScanMode.text, tags := tags, tag := tag, attrs := attrs, attr := attr,
          value := value } =
      { mode := ScanMode.text, tags := tags, tag := tag, attrs := attrs, attr := attr,
        value := value } := by
  induction l with
  | nil => simp
  | cons c cs ih =>
    have hc : c ≠ '<' := fun e => hl (e ▸ List.mem_cons_self c cs)
    have hcs : '<' ∉ cs := fun e => hl (List.mem_cons_of_mem c e)
    rw [List.foldl_cons]
    have hstep : scanStep
        { mode := ScanMode.text, tags := tags, tag := tag, attrs := attrs, attr := attr,
          value := value } c =
        { mode := ScanMode.text, tags := tags, tag := tag, attrs := attrs, attr := attr,
          value := value } := by
      simp [scanStep, hc]
    rw [hstep, ih hcs]

theorem srcAttribute_img (u : String) (hq : dquote ∉ u.data) :
    srcAttribute ("<img src=\"" ++ u ++ "\" class=\"img-fluid rounded\" alt=\"Pré-visualização da Imagem\" style=\"max-height: 100%; max-width: 100%;\">") =
      some u := by
  simp only [srcAttribute, String.data_append]
  have hcut : afterFirst "src=\"".data
      ("<img src=\"".data ++ u.data ++ "\" class=\"img-fluid rounded\" alt=\"Pré-visualização da Imagem\" style=\"max-height: 100%; max-width: 100%;\">".data) =
      some (u.data ++ dquote :: " class=\"img-fluid rounded\" alt=\"Pré-visualização da Imagem\" style=\"max-height: 100%; max-width: 100%;\">".data) := by
    simp [afterFirst, List.isPrefixOf]
    rfl
  rw [hcut, Option.some_bind, upToQuote_append, takeWhile_eq_of_not_mem u.data hq]
  rfl

/-! ### Pieces of the templates

Each lemma reads one piece of a template from a reader whose tags, tag name and
attributes are arbitrary. -/

theorem scan_img_class (T : List Tag) (tg : List Char) (A : List (String × String))
    (a v : List Char) :
    List.foldl scanStep
        { mode := ScanMode.valueDq, tags := T, tag := tg, attrs := A, attr := a, value := v }
        "\" class=\"img-fluid rounded\" ".data =
      { mode := ScanMode.gap, tags := T, tag := tg,
        attrs := A ++ [(String.mk a, String.mk v), ("class", "img-fluid rounded")],
        attr := [], value := [] } := by
  simp [List.foldl, scanStep, Scan.pushAttr, Scan.emit, dquote, squote]

theorem scan_img_alt (T : List Tag) (tg : List Char) (A : List (String × String)) :
    List.foldl scanStep
        { mode := ScanMode.gap, tags := T, tag := tg, attrs := A, attr := [], value := [] }
        "alt=\"Pré-visualização da Imagem\" ".data =
      { mode := ScanMode.gap, tags := T, tag := tg,
        attrs := A ++ [("alt", "Pré-visualização da Imagem")], attr := [], value := [] } := by
  simp [List.foldl, scanStep, Scan.pushAttr, Scan.emit, dquote, squote]

theorem scan_img_style (T : List Tag) (tg : List Char) (A : List (String × String)) :
    List.foldl scanStep
        { mode := ScanMode.gap, tags := T, tag := tg, attrs := A, attr := [], value := [] }
        "style=\"max-height: 100%; max-width: 100%;\">".data =
      { mode := ScanMode.text,
        tags := T ++ [{ name := String.mk tg,
                        attrs := A ++ [("style", "max-height: 100%; max-width: 100%;")] }],
        tag := [], attrs := [], attr := [], value := [] } := by
  simp [List.foldl, scanStep, Scan.pushAttr, Scan.emit, dquote, squote]

theorem scan_pdf_type (T : List Tag) (tg : List Char) (A : List (String × String))
    (a v : List Char) :
    List.foldl scanStep
        { mode := ScanMode.valueDq, tags := T, tag := tg, attrs := A, attr := a, value := v }
        "\" \n                type=\"application/pdf\" \n                ".data =
      { mode := ScanMode.gap, tags := T, tag := tg,
        attrs := A ++ [(String.mk a, String.mk v), ("type", "application/pdf")],
        attr := [], value := [] } := by
  simp [List.foldl, scanStep, Scan.pushAttr, Scan.emit, dquote, squote]

theorem scan_pdf_size (T : List Tag) (tg : List Char) (A : List (String × String)) :
    List.foldl scanStep
        { mode := ScanMode.gap, tags := T, tag := tg, attrs := A, attr := [], value := [] }
        "width=\"100%\" \n                height=\"100%\"\n                ".data =
      { mode := ScanMode.gap, tags := T, tag := tg,
        attrs := A ++ [("width", "100%"), ("height", "100%")], attr := [], value := [] } := by
  simp [List.foldl, scanStep, Scan.pushAttr, Scan.emit, dquote, squote]

theorem scan_pdf_style (T : List Tag) (tg : List Char) (A : List (String × String)) :
    List.foldl scanStep
        { mode := ScanMode.gap, tags := T, tag := tg, attrs := A, attr := [], value := [] }
        "style=\"border: none;\">\n                <p>".data =
      { mode := ScanMode.text,
        tags := T ++ [{ name := String.mk tg, attrs := A ++ [("style", "border: none;")] },
                      { name := "p", attrs := [] }],
        tag := [], attrs := [], attr := [], value := [] } := by
  simp [List.foldl, scanStep, Scan.pushAttr, Scan.emit, dquote, squote]

theorem scan_pdf_link (T : List Tag) :
    List.foldl scanStep
        { mode := ScanMode.text, tags := T, tag := [], attrs := [], attr := [], value := [] }
        "\n                <a href=\"".data =
      { mode := ScanMode.valueDq, tags := T, tag := "a".data, attrs := [],
        attr := "href".data, value := [] } := by
  simp [List.foldl, scanStep, Scan.pushAttr, Scan.emit, dquote, squote]

theorem scan_pdf_target (T : List Tag) (tg : List Char) (A : List (String × String))
    (a v : List Char) :
    List.foldl scanStep
        { mode := ScanMode.valueDq, tags := T, tag := tg, attrs := A, attr := a, value := v }
        "\" target=\"_blank\">".data =
      { mode := ScanMode.text,
        tags := T ++ [{ name := String.mk tg,
                        attrs := A ++ [(String.mk a, String.mk v), ("target", "_blank")] }],
        tag := [], attrs := [], attr := [], value := [] } := by
  simp [List.foldl, scanStep, Scan.pushAttr, Scan.emit, dquote, squote]

theorem scan_pdf_close (T : List Tag) :
    List.foldl scanStep
        { mode := ScanMode.text, tags := T, tag := [], attrs := [], attr := [], value := [] }
        "Clique aqui para baixar.</a></p>\n            </object>".data =
      { mode := ScanMode.text,
        tags := T ++ [{ name := "/a", attrs := [] }, { name := "/p", attrs := [] },
                      { name := "/object", attrs := [] }],
        tag := [], attrs := [], attr := [], value := [] } := by
  simp [List.foldl, scanStep, Scan.pushAttr, Scan.emit, dquote, squote]

theorem scan_video_type (T : List Tag) (tg : List Char) (A : List (String × String))
    (a v : List Char) :
    List.foldl scanStep
        { mode := ScanMode.valueDq, tags := T, tag := tg, attrs := A, attr := a, value := v }
        "\" type=\"".data =
      { mode := ScanMode.valueDq, tags := T, tag := tg,
        attrs := A ++ [(String.mk a, String.mk v)], attr := "type".data, value := [] } := by
  simp [List.foldl, scanStep, Scan.pushAttr, Scan.emit, dquote, squote]

theorem scan_video_end (T : List Tag) (tg : List Char) (A : List (String × String))
    (a v : List Char) :
    List.foldl scanStep
        { mode := ScanMode.valueDq, tags := T, tag := tg, attrs := A, attr := a, value := v }
        "\">".data =
      { mode := ScanMode.text,
        tags := T ++ [{ name := String.mk tg, attrs := A ++ [(String.mk a, String.mk v)] }],
        tag := [], attrs := [], attr := [], value := [] } := by
  simp [List.foldl, scanStep, Scan.pushAttr, Scan.emit, dquote, squote]

theorem scan_video_close (T : List Tag) :
    List.foldl scanStep
        { mode := ScanMode.text, tags := T, tag := [], attrs := [], attr := [], value := [] }
        "</video>".data =
      { mode := ScanMode.text, tags := T ++ [{ name := "/video", attrs := [] }],
        tag := [], attrs := [], attr := [], value := [] } := by
  simp [List.foldl, scanStep, Scan.pushAttr, Scan.emit, dquote, squote]

theorem scan_fallback_target (T : List Tag) (tg : List Char) (A : List (String × String))
    (a v : List Char) :
    List.foldl scanStep
        { mode := ScanMode.valueDq, tags := T, tag := tg, attrs := A, attr := a, value := v }
        "\" target=\"_blank\" ".data =
      { mode := ScanMode.gap, tags := T, tag := tg,
        attrs := A ++ [(String.mk a, String.mk v), ("target", "_blank")],
        attr := [], value := [] } := by
  simp [List.foldl, scanStep, Scan.pushAttr, Scan.emit, dquote, squote]

theorem scan_fallback_class (T : List Tag) (tg : List Char) (A : List (String × String)) :
    List.foldl scanStep
        { mode := ScanMode.gap, tags := T, tag := tg, attrs := A, attr := [], value := [] }
        "class=\"btn btn-success mt-3\">".data =
      { mode := ScanMode.text,
        tags := T ++ [{ name := String.mk tg,
                        attrs := A ++ [("class", "btn btn-success mt-3")] }],
        tag := [], attrs := [], attr := [], value := [] } := by
  simp [List.foldl, scanStep, Scan.pushAttr, Scan.emit, dquote, squote]

theorem scan_fallback_close (T : List Tag) :
    List.foldl scanStep
        { mode := ScanMode.text, tags := T, tag := [], attrs := [], attr := [], value := [] }
        "Tentar Abrir em Nova Aba</a>".data =
      { mode := ScanMode.text, tags := T ++ [{ name := "/a", attrs := [] }],
        tag := [], attrs := [], attr := [], value := [] } := by
  simp [List.foldl, scanStep, Scan.pushAttr, Scan.emit, dquote, squote]

/-! ### The tags of the four templates -/

theorem markupTags_img (u : String) (hq : dquote ∉ u.data) :
    markupTags ("<img src=\"" ++ u ++ "\" class=\"img-fluid rounded\" alt=\"Pré-visualização da Imagem\" style=\"max-height: 100%; max-width: 100%;\">") =
      [{ name := "img",
         attrs := [("src", u), ("class", "img-fluid rounded"),
           ("alt", "Pré-visualização da Imagem"),
           ("style", "max-height: 100%; max-width: 100%;")] }] := by
  have hA : List.foldl scanStep Scan.start "<img src=\"".data =
      { mode := ScanMode.valueDq, tags := [], tag := "img".data, attrs := [],
        attr := "src".data, value := [] } := by decide
  have hC : "\" class=\"img-fluid rounded\" alt=\"Pré-visualização da Imagem\" style=\"max-height: 100%; max-width: 100%;\">" =
      "\" class=\"img-fluid rounded\" " ++ ("alt=\"Pré-visualização da Imagem\" " ++
        "style=\"max-height: 100%; max-width: 100%;\">") := by decide
  unfold markupTags
  rw [hC]
  simp only [String.data_append, List.foldl_append]
  rw [hA, scan_valueDq u.data _ _ _ _ _ hq, scan_img_class, scan_img_alt, scan_img_style]
  rfl

theorem markupTags_pdf (u : String) (hq : dquote ∉ u.data) :
    markupTags ("\n            <object \n                data=\"" ++ u ++ "\" \n                type=\"application/pdf\" \n                width=\"100%\" \n                height=\"100%\"\n                style=\"border: none;\">\n                <p>O seu navegador não suporta a visualização de PDFs. \n                <a href=\"" ++ u ++ "\" target=\"_blank\">Clique aqui para baixar.</a></p>\n            </object>") =
      [{ name := "object",
         attrs := [("data", u), ("type", "application/pdf"), ("width", "100%"),
           ("height", "100%"), ("style", "border: none;")] },
       { name := "p", attrs := [] },
       { name := "a", attrs := [("href", u), ("target", "_blank")] },
       { name := "/a", attrs := [] },
       { name := "/p", attrs := [] },
       { name := "/object", attrs := [] }] := by
  have hA : List.foldl scanStep Scan.start
      "\n            <object \n                data=\"".data =
      { mode := ScanMode.valueDq, tags := [], tag := "object".data, attrs := [],
        attr := "data".data, value := [] } := by decide
  have hB : "\" \n                type=\"application/pdf\" \n                width=\"100%\" \n                height=\"100%\"\n                style=\"border: none;\">\n                <p>O seu navegador não suporta a visualização de PDFs. \n                <a href=\"" =
      "\" \n                type=\"application/pdf\" \n                " ++
        ("width=\"100%\" \n                height=\"100%\"\n                " ++
        ("style=\"border: none;\">\n                <p>" ++
        ("O seu navegador não suporta a visualização de PDFs. " ++
          "\n                <a href=\""))) := by decide
  have hC : "\" target=\"_blank\">Clique aqui para baixar.</a></p>\n            </object>" =
      "\" target=\"_blank\">" ++
        "Clique aqui para baixar.</a></p>\n            </object>" := by decide
  have hT : '<' ∉ "O seu navegador não suporta a visualização de PDFs. ".data := by decide
  unfold markupTags
  rw [hB, hC]
  simp only [String.data_append, List.foldl_append]
  rw [hA, scan_valueDq u.data _ _ _ _ _ hq, scan_pdf_type, scan_pdf_size, scan_pdf_style,
    scan_text _ _ _ _ _ _ hT, scan_pdf_link, scan_valueDq u.data _ _ _ _ _ hq,
    scan_pdf_target, scan_pdf_close]
  rfl

theorem markupTags_video (u ty : String) (hq : dquote ∉ u.data) (ht : dquote ∉ ty.data) :
    markupTags ("\n            <video controls width=\"100%\" height=\"auto\" style=\"max-height: 100%;\">\n                <source src=\"" ++ u ++ "\" type=\"" ++ ty ++ "\">\n                Seu navegador não suporta o elemento de vídeo.\n            </video>") =
      [{ name := "video",
         attrs := [("controls", ""), ("width", "100%"), ("height", "auto"),
           ("style", "max-height: 100%;")] },
       { name := "source", attrs := [("src", u), ("type", ty)] },
       { name := "/video", attrs := [] }] := by
  have hA : List.foldl scanStep Scan.start
      "\n            <video controls width=\"100%\" height=\"auto\" style=\"max-height: 100%;\">\n                <source src=\"".data =
      { mode := ScanMode.valueDq,
        tags := [{ name := "video",
                   attrs := [("controls", ""), ("width", "100%"), ("height", "auto"),
                     ("style", "max-height: 100%;")] }],
        tag := "source".data, attrs := [], attr := "src".data, value := [] } := by decide
  have hC : "\">\n                Seu navegador não suporta o elemento de vídeo.\n            </video>" =
      "\">" ++
        ("\n                Seu navegador não suporta o elemento de vídeo.\n            " ++
          "</video>") := by decide
  have hT : '<' ∉
      "\n                Seu navegador não suporta o elemento de vídeo.\n            ".data := by
    decide
  unfold markupTags
  rw [hC]
  simp only [String.data_append, List.foldl_append]
  rw [hA, scan_valueDq u.data _ _ _ _ _ hq, scan_video_type,
    scan_valueDq ty.data _ _ _ _ _ ht, scan_video_end, scan_text _ _ _ _ _ _ hT,
    scan_video_close]
  rfl

theorem markupTags_fallback (u ty : String) (hq : dquote ∉ u.data) (ht : '<' ∉ ty.data) :
    markupTags ("\n            <p class=\"text-danger mt-5\">\n                Não é possível exibir o ‘preview’ nativamente para o tipo de arquivo: \n                <strong>" ++ ty ++ "</strong>.\n            </p>\n            <a href=\"" ++ u ++ "\" target=\"_blank\" class=\"btn btn-success mt-3\">Tentar Abrir em Nova Aba</a>") =
      [{ name := "p", attrs := [("class", "text-danger mt-5")] },
       { name := "strong", attrs := [] },
       { name := "/strong", attrs := [] },
       { name := "/p", attrs := [] },
       { name := "a",
         attrs := [("href", u), ("target", "_blank"), ("class", "btn btn-success mt-3")] },
       { name := "/a", attrs := [] }] := by
  have hA : List.foldl scanStep Scan.start
      "\n            <p class=\"text-danger mt-5\">\n                Não é possível exibir o ‘preview’ nativamente para o tipo de arquivo: \n                <strong>".data =
      { mode := ScanMode.text,
        tags := [{ name := "p", attrs := [("class", "text-danger mt-5")] },
                 { name := "strong", attrs := [] }],
        tag := [], attrs := [], attr := [], value := [] } := by decide
  have hB : List.foldl scanStep
      { mode := ScanMode.text,
        tags := [{ name := "p", attrs := [("class", "text-danger mt-5")] },
                 { name := "strong", attrs := [] }],
        tag := [], attrs := [], attr := [], value := [] }
      "</strong>.\n            </p>\n            <a href=\"".data =
      { mode := ScanMode.valueDq,
        tags := [{ name := "p", attrs := [("class", "text-danger mt-5")] },
                 { name := "strong", attrs := [] },
                 { name := "/strong", attrs := [] },
                 { name := "/p", attrs := [] }],
        tag := "a".data, attrs := [], attr := "href".data, value := [] } := by decide
  have hC : "\" target=\"_blank\" class=\"btn btn-success mt-3\">Tentar Abrir em Nova Aba</a>" =
      "\" target=\"_blank\" " ++ ("class=\"btn btn-success mt-3\">" ++
        "Tentar Abrir em Nova Aba</a>") := by decide
  unfold markupTags
  rw [hC]
  simp only [String.data_append, List.foldl_append]
  rw [hA, scan_text ty.data _ _ _ _ _ ht, hB, scan_valueDq u.data _ _ _ _ _ hq,
    scan_fallback_target, scan_fallback_class, scan_fallback_close]
  rfl

/-! ## The four render branches -/

/-- C1, as stated, fails: with the URL `x" onerror="alert(1)` and the type
`image/png` the `img` element of the rendered content has the source `x`, not
the URL, and an `onerror` attribute besides. -/
theorem onShow_image_src_not_url :
    startsWith "image/png" "image/" = true ∧
    attributeOf "img" "src"
        (onShow (some (buttonOf "x\" onerror=\"alert(1)" "image/png"))
          ⟨"old", "t"⟩).2.previewContainer = some "x" ∧
    attributeOf "img" "src"
        (onShow (some (buttonOf "x\" onerror=\"alert(1)" "image/png"))
          ⟨"old", "t"⟩).2.previewContainer ≠ some "x\" onerror=\"alert(1)" ∧
    attributeOf "img" "onerror"
        (onShow (some (buttonOf "x\" onerror=\"alert(1)" "image/png"))
          ⟨"old", "t"⟩).2.previewContainer = some "alert(1)" := by
  decide

/-- C1, amended: for every URL string, every type string starting with `image/`
and every prior page, the open handler completes normally and leaves in the
container exactly the `img` template with the URL substituted; when the URL
contains no double quote, the source delimited in that markup is the URL and
the markup is one `img` tag with the attributes `src` (the URL), `class`,
`alt` and `style`. -/
theorem onShow_image (fileURL fileType : String) (page : Page)
    (h : startsWith fileType "image/" = true) :
    (onShow (some (buttonOf fileURL fileType)) page).1 = Completion.normal ∧
    (onShow (some (buttonOf fileURL fileType)) page).2.previewContainer =
      "<img src=\"" ++ fileURL ++ "\" class=\"img-fluid rounded\" alt=\"Pré-visualização da Imagem\" style=\"max-height: 100%; max-width: 100%;\">" ∧
    (dquote ∉ fileURL.data →
      srcAttribute (onShow (some (buttonOf fileURL fileType)) page).2.previewContainer =
        some fileURL ∧
      markupTags (onShow (some (buttonOf fileURL fileType)) page).2.previewContainer =
        [{ name := "img",
           attrs := [("src", fileURL), ("class", "img-fluid rounded"),
             ("alt", "Pré-visualização da Imagem"),
             ("style", "max-height: 100%; max-width: 100%;")] }]) := by
  have hc : (onShow (some (buttonOf fileURL fileType)) page).2.previewContainer =
      "<img src=\"" ++ fileURL ++ "\" class=\"img-fluid rounded\" alt=\"Pré-visualização da Imagem\" style=\"max-height: 100%; max-width: 100%;\">" := by
    simp [onShow, buttonOf, previewContent, toJSString, h]
  refine ⟨rfl, hc, fun hq => ?_⟩
  rw [hc]
  exact ⟨srcAttribute_img fileURL hq, markupTags_img fileURL hq⟩

theorem onShow_image_witness :
    (startsWith "image/png" "image/" = true ∧ dquote ∉ "/files/a.png".data) ∧
    (onShow (some (buttonOf "/files/a.png" "image/png")) ⟨"old", "t"⟩).1 = Completion.normal ∧
    (onShow (some (buttonOf "/files/a.png" "image/png")) ⟨"old", "t"⟩).2.previewContainer =
      "<img src=\"" ++ "/files/a.png" ++ "\" class=\"img-fluid rounded\" alt=\"Pré-visualização da Imagem\" style=\"max-height: 100%; max-width: 100%;\">" ∧
    srcAttribute (onShow (some (buttonOf "/files/a.png" "image/png"))
        ⟨"old", "t"⟩).2.previewContainer = some "/files/a.png" ∧
    markupTags (onShow (some (buttonOf "/files/a.png" "image/png"))
        ⟨"old", "t"⟩).2.previewContainer =
      [{ name := "img",
         attrs := [("src", "/files/a.png"), ("class", "img-fluid rounded"),
           ("alt", "Pré-visualização da Imagem"),
           ("style", "max-height: 100%; max-width: 100%;")] }] :=
  have t := onShow_image "/files/a.png" "image/png" ⟨"old", "t"⟩ (by decide)
  ⟨⟨by decide, by decide⟩, t.1, t.2.1, (t.2.2 (by decide)).1, (t.2.2 (by decide)).2⟩

/-- C2, as stated, fails: with the URL `d.pdf" type="text/html` the `object`
element of the rendered content has the data `d.pdf` and the type `text/html`,
and the link inside it has the target `d.pdf`; neither points to the URL. -/
theorem onShow_pdf_data_not_url :
    attributeOf "object" "data"
        (onShow (some (buttonOf "d.pdf\" type=\"text/html" "application/pdf"))
          ⟨"old", "t"⟩).2.previewContainer = some "d.pdf" ∧
    attributeOf "object" "data"
        (onShow (some (buttonOf "d.pdf\" type=\"text/html" "application/pdf"))
          ⟨"old", "t"⟩).2.previewContainer ≠ some "d.pdf\" type=\"text/html" ∧
    attributeOf "object" "type"
        (onShow (some (buttonOf "d.pdf\" type=\"text/html" "application/pdf"))
          ⟨"old", "t"⟩).2.previewContainer = some "text/html" ∧
    attributeOf "a" "href"
        (onShow (some (buttonOf "d.pdf\" type=\"text/html" "application/pdf"))
          ⟨"old", "t"⟩).2.previewContainer = some "d.pdf" := by
  decide

/-- C2, amended: for every URL string and the type `application/pdf`, the
container holds the `object` template, written with the URL after `data="`
and after `<a href="`; when the URL contains no double quote, the markup is an
`object` tag with data the URL and type `application/pdf`, and between it and
its end tag a link whose `href` is the same URL. -/
theorem onShow_pdf (fileURL : String) (page : Page) :
    (onShow (some (buttonOf fileURL "application/pdf")) page).2.previewContainer =
      "\n            <object \n                " ++
        ("data=\"" ++ fileURL ++ "\"") ++
        " \n                type=\"application/pdf\" \n                width=\"100%\" \n                height=\"100%\"\n                style=\"border: none;\">\n                <p>O seu navegador não suporta a visualização de PDFs. \n                " ++
        ("<a href=\"" ++ fileURL ++ "\" target=\"_blank\">") ++
        "Clique aqui para baixar.</a></p>\n            </object>" ∧
    (dquote ∉ fileURL.data →
      markupTags (onShow (some (buttonOf fileURL "application/pdf")) page).2.previewContainer =
        [{ name := "object",
           attrs := [("data", fileURL), ("type", "application/pdf"), ("width", "100%"),
             ("height", "100%"), ("style", "border: none;")] },
         { name := "p", attrs := [] },
         { name := "a", attrs := [("href", fileURL), ("target", "_blank")] },
         { name := "/a", attrs := [] },
         { name := "/p", attrs := [] },
         { name := "/object", attrs := [] }]) := by
  have hc : (onShow (some (buttonOf fileURL "application/pdf")) page).2.previewContainer =
      "\n            <object \n                data=\"" ++ fileURL ++ "\" \n                type=\"application/pdf\" \n                width=\"100%\" \n                height=\"100%\"\n                style=\"border: none;\">\n                <p>O seu navegador não suporta a visualização de PDFs. \n                <a href=\"" ++ fileURL ++ "\" target=\"_blank\">Clique aqui para baixar.</a></p>\n            </object>" := by
    simp [onShow, buttonOf, previewContent, toJSString, pdf_not_image]
  refine ⟨?_, fun hq => ?_⟩
  · rw [hc]
    apply String.ext
    simp only [String.data_append, List.append_assoc]
    rfl
  · rw [hc]
    exact markupTags_pdf fileURL hq

theorem onShow_pdf_witness :
    dquote ∉ "/files/d.pdf".data ∧
    (onShow (some (buttonOf "/files/d.pdf" "application/pdf")) ⟨"old", "t"⟩).2.previewContainer =
      "\n            <object \n                " ++
        ("data=\"" ++ "/files/d.pdf" ++ "\"") ++
        " \n                type=\"application/pdf\" \n                width=\"100%\" \n                height=\"100%\"\n                style=\"border: none;\">\n                <p>O seu navegador não suporta a visualização de PDFs. \n                " ++
        ("<a href=\"" ++ "/files/d.pdf" ++ "\" target=\"_blank\">") ++
        "Clique aqui para baixar.</a></p>\n            </object>" ∧
    markupTags (onShow (some (buttonOf "/files/d.pdf" "application/pdf"))
        ⟨"old", "t"⟩).2.previewContainer =
      [{ name := "object",
         attrs := [("data", "/files/d.pdf"), ("type", "application/pdf"), ("width", "100%"),
           ("height", "100%"), ("style", "border: none;")] },
       { name := "p", attrs := [] },
       { name := "a", attrs := [("href", "/files/d.pdf"), ("target", "_blank")] },
       { name := "/a", attrs := [] },
       { name := "/p", attrs := [] },
       { name := "/object", attrs := [] }] :=
  have t := onShow_pdf "/files/d.pdf" ⟨"old", "t"⟩
  ⟨by decide, t.1, t.2 (by decide)⟩

/-- C3, as stated, fails: with the type `video/mp4" onerror="x` the `source`
child of the rendered content has the type `video/mp4`, not the type string;
with the URL `v.mp4" type="text/html` and the type `video/mp4` it has the
source `v.mp4` and the type `text/html`. -/
theorem onShow_video_source_not_inputs :
    startsWith "video/mp4\" onerror=\"x" "video/" = true ∧
    attributeOf "source" "type"
        (onShow (some (buttonOf "/files/v.mp4" "video/mp4\" onerror=\"x"))
          ⟨"old", "t"⟩).2.previewContainer = some "video/mp4" ∧
    attributeOf "source" "type"
        (onShow (some (buttonOf "/files/v.mp4" "video/mp4\" onerror=\"x"))
          ⟨"old", "t"⟩).2.previewContainer ≠ some "video/mp4\" onerror=\"x" ∧
    startsWith "video/mp4" "video/" = true ∧
    attributeOf "source" "src"
        (onShow (some (buttonOf "v.mp4\" type=\"text/html" "video/mp4"))
          ⟨"old", "t"⟩).2.previewContainer = some "v.mp4" ∧
    attributeOf "source" "type"
        (onShow (some (buttonOf "v.mp4\" type=\"text/html" "video/mp4"))
          ⟨"old", "t"⟩).2.previewContainer = some "text/html" := by
  decide

/-- C3, amended: for every URL string and every type string starting with
`video/`, the container holds the `video controls` template with the child
written as `<source src="` URL `" type="` type `">`; when neither the URL nor
the type contains a double quote, the markup is a `video` tag, a `source` tag
whose `src` is the URL and whose `type` is the type string, and the end tag of
`video`. -/
theorem onShow_video (fileURL fileType : String) (page : Page)
    (h : startsWith fileType "video/" = true) :
    (onShow (some (buttonOf fileURL fileType)) page).2.previewContainer =
      "\n            <video controls width=\"100%\" height=\"auto\" style=\"max-height: 100%;\">\n                " ++
        ("<source src=\"" ++ fileURL ++ "\" type=\"" ++ fileType ++ "\">") ++
        "\n                Seu navegador não suporta o elemento de vídeo.\n            </video>" ∧
    (dquote ∉ fileURL.data → dquote ∉ fileType.data →
      markupTags (onShow (some (buttonOf fileURL fileType)) page).2.previewContainer =
        [{ name := "video",
           attrs := [("controls", ""), ("width", "100%"), ("height", "auto"),
             ("style", "max-height: 100%;")] },
         { name := "source", attrs := [("src", fileURL), ("type", fileType)] },
         { name := "/video", attrs := [] }]) := by
  have hc : (onShow (some (buttonOf fileURL fileType)) page).2.previewContainer =
      "\n            <video controls width=\"100%\" height=\"auto\" style=\"max-height: 100%;\">\n                <source src=\"" ++ fileURL ++ "\" type=\"" ++ fileType ++ "\">\n                Seu navegador não suporta o elemento de vídeo.\n            </video>" := by
    simp only [onShow, buttonOf, previewContent, toJSString, h, video_not_image fileType h,
      video_not_pdf fileType h, if_true, if_false, Bool.false_eq_true]
  refine ⟨?_, fun hq ht => ?_⟩
  · rw [hc]
    apply String.ext
    simp only [String.data_append, List.append_assoc]
    rfl
  · rw [hc]
    exact markupTags_video fileURL fileType hq ht

theorem onShow_video_witness :
    (startsWith "video/mp4" "video/" = true ∧ dquote ∉ "/files/v.mp4".data ∧
      dquote ∉ "video/mp4".data) ∧
    (onShow (some (buttonOf "/files/v.mp4" "video/mp4")) ⟨"old", "t"⟩).2.previewContainer =
      "\n            <video controls width=\"100%\" height=\"auto\" style=\"max-height: 100%;\">\n                " ++
        ("<source src=\"" ++ "/files/v.mp4" ++ "\" type=\"" ++ "video/mp4" ++ "\">") ++
        "\n                Seu navegador não suporta o elemento de vídeo.\n            </video>" ∧
    markupTags (onShow (some (buttonOf "/files/v.mp4" "video/mp4"))
        ⟨"old", "t"⟩).2.previewContainer =
      [{ name := "video",
         attrs := [("controls", ""), ("width", "100%"), ("height", "auto"),
           ("style", "max-height: 100%;")] },
       { name := "source", attrs := [("src", "/files/v.mp4"), ("type", "video/mp4")] },
       { name := "/video", attrs := [] }] :=
  have t := onShow_video "/files/v.mp4" "video/mp4" ⟨"old", "t"⟩ (by decide)
  ⟨⟨by decide, by decide, by decide⟩, t.1, t.2 (by decide) (by decide)⟩

/-- C4, as stated, fails: with the URL `/a" target="_self` and the type
`text/plain` the link of the rendered content has the target address `/a`
and opens it in the same context (`_self`); with the type `<b title="` the
rendered content has no link at all. -/
theorem onShow_fallback_link_not_url :
    (startsWith "text/plain" "image/" = false ∧ "text/plain" ≠ "application/pdf" ∧
      startsWith "text/plain" "video/" = false) ∧
    attributeOf "a" "href"
        (onShow (some (buttonOf "/a\" target=\"_self" "text/plain"))
          ⟨"old", "t"⟩).2.previewContainer = some "/a" ∧
    attributeOf "a" "href"
        (onShow (some (buttonOf "/a\" target=\"_self" "text/plain"))
          ⟨"old", "t"⟩).2.previewContainer ≠ some "/a\" target=\"_self" ∧
    attributeOf "a" "target"
        (onShow (some (buttonOf "/a\" target=\"_self" "text/plain"))
          ⟨"old", "t"⟩).2.previewContainer = some "_self" ∧
    (startsWith "<b title=\"" "image/" = false ∧ "<b title=\"" ≠ "application/pdf" ∧
      startsWith "<b title=\"" "video/" = false) ∧
    attributeOf "a" "href"
        (onShow (some (buttonOf "/files/n.txt" "<b title=\""))
          ⟨"old", "t"⟩).2.previewContainer = none := by
  decide

/-- C4, amended: for every URL string and every type string that neither starts
with `image/`, nor is `application/pdf`, nor starts with `video/`, the open
handler completes normally and the container holds the fallback template, with
the type between `strong` tags and the URL after `<a href="`; when the URL
contains no double quote and the type contains no `<`, the markup is a
paragraph holding an empty-attribute `strong` element, followed by a link
whose `href` is the URL and whose `target` is `_blank`. -/
theorem onShow_fallback (fileURL fileType : String) (page : Page)
    (hi : startsWith fileType "image/" = false) (hp : fileType ≠ "application/pdf")
    (hv : startsWith fileType "video/" = false) :
    (onShow (some (buttonOf fileURL fileType)) page).1 = Completion.normal ∧
    (onShow (some (buttonOf fileURL fileType)) page).2.previewContainer =
      "\n            <p class=\"text-danger mt-5\">\n                Não é possível exibir o ‘preview’ nativamente para o tipo de arquivo: \n                " ++
        ("<strong>" ++ fileType ++ "</strong>") ++
        ".\n            </p>\n            " ++
        ("<a href=\"" ++ fileURL ++ "\" target=\"_blank\" class=\"btn btn-success mt-3\">") ++
        "Tentar Abrir em Nova Aba</a>" ∧
    (dquote ∉ fileURL.data → '<' ∉ fileType.data →
      markupTags (onShow (some (buttonOf fileURL fileType)) page).2.previewContainer =
        [{ name := "p", attrs := [("class", "text-danger mt-5")] },
         { name := "strong", attrs := [] },
         { name := "/strong", attrs := [] },
         { name := "/p", attrs := [] },
         { name := "a",
           attrs := [("href", fileURL), ("target", "_blank"),
             ("class", "btn btn-success mt-3")] },
         { name := "/a", attrs := [] }]) := by
  have hc : (onShow (some (buttonOf fileURL fileType)) page).2.previewContainer =
      "\n            <p class=\"text-danger mt-5\">\n                Não é possível exibir o ‘preview’ nativamente para o tipo de arquivo: \n                <strong>" ++ fileType ++ "</strong>.\n            </p>\n            <a href=\"" ++ fileURL ++ "\" target=\"_blank\" class=\"btn btn-success mt-3\">Tentar Abrir em Nova Aba</a>" := by
    simp only [onShow, buttonOf, previewContent, toJSString, hi, hp, hv, if_false,
      Bool.false_eq_true]
  refine ⟨rfl, ?_, fun hq ht => ?_⟩
  · rw [hc]
    apply String.ext
    simp only [String.data_append, List.append_assoc]
    rfl
  · rw [hc]
    exact markupTags_fallback fileURL fileType hq ht

theorem onShow_fallback_witness :
    (startsWith "text/plain" "image/" = false ∧ "text/plain" ≠ "application/pdf" ∧
      startsWith "text/plain" "video/" = false ∧ dquote ∉ "/files/n.txt".data ∧
      '<' ∉ "text/plain".data) ∧
    (startsWith "" "image/" = false ∧ "" ≠ "application/pdf" ∧ startsWith "" "video/" = false ∧
      dquote ∉ "/files/n".data ∧ '<' ∉ "".data) ∧
    ((onShow (some (buttonOf "/files/n.txt" "text/plain")) ⟨"old", "t"⟩).1 = Completion.normal ∧
    (onShow (some (buttonOf "/files/n.txt" "text/plain")) ⟨"old", "t"⟩).2.previewContainer =
      "\n            <p class=\"text-danger mt-5\">\n                Não é possível exibir o ‘preview’ nativamente para o tipo de arquivo: \n                " ++
        ("<strong>" ++ "text/plain" ++ "</strong>") ++
        ".\n            </p>\n            " ++
        ("<a href=\"" ++ "/files/n.txt" ++ "\" target=\"_blank\" class=\"btn btn-success mt-3\">") ++
        "Tentar Abrir em Nova Aba</a>" ∧
    markupTags (onShow (some (buttonOf "/files/n.txt" "text/plain"))
        ⟨"old", "t"⟩).2.previewContainer =
      [{ name := "p", attrs := [("class", "text-danger mt-5")] },
       { name := "strong", attrs := [] },
       { name := "/strong", attrs := [] },
       { name := "/p", attrs := [] },
       { name := "a",
         attrs := [("href", "/files/n.txt"), ("target", "_blank"),
           ("class", "btn btn-success mt-3")] },
       { name := "/a", attrs := [] }]) ∧
    ((onShow (some (buttonOf "/files/n" "")) ⟨"old", "t"⟩).1 = Completion.normal ∧
    (onShow (some (buttonOf "/files/n" "")) ⟨"old", "t"⟩).2.previewContainer =
      "\n            <p class=\"text-danger mt-5\">\n                Não é possível exibir o ‘preview’ nativamente para o tipo de arquivo: \n                " ++
        ("<strong>" ++ "" ++ "</strong>") ++
        ".\n            </p>\n            " ++
        ("<a href=\"" ++ "/files/n" ++ "\" target=\"_blank\" class=\"btn btn-success mt-3\">") ++
        "Tentar Abrir em Nova Aba</a>" ∧
    markupTags (onShow (some (buttonOf "/files/n" "")) ⟨"old", "t"⟩).2.previewContainer =
      [{ name := "p", attrs := [("class", "text-danger mt-5")] },
       { name := "strong", attrs := [] },
       { name := "/strong", attrs := [] },
       { name := "/p", attrs := [] },
       { name := "a",
         attrs := [("href", "/files/n"), ("target", "_blank"),
           ("class", "btn btn-success mt-3")] },
       { name := "/a", attrs := [] }]) :=
  have t₁ := onShow_fallback "/files/n.txt" "text/plain" ⟨"old", "t"⟩
    (by decide) (by decide) (by decide)
  have t₂ := onShow_fallback "/files/n" "" ⟨"old", "t"⟩ (by decide) (by decide) (by decide)
  ⟨⟨by decide, by decide, by decide, by decide, by decide⟩,
    ⟨by decide, by decide, by decide, by decide, by decide⟩,
    ⟨t₁.1, t₁.2.1, t₁.2.2 (by decide) (by decide)⟩,
    ⟨t₂.1, t₂.2.1, t₂.2.2 (by decide) (by decide)⟩⟩

/-- C5: for every type string and every URL attribute value (a string or
`null`), after the open handler the title is `Visualizando: ` followed by the
type, in whichever of the four branches the type falls. -/
theorem onShow_title (fileURL : Option String) (fileType : String) (page : Page) :
    (onShow (some ⟨fileURL, some fileType⟩) page).1 = Completion.normal ∧
    (onShow (some ⟨fileURL, some fileType⟩) page).2.modalTitle =
      "Visualizando: " ++ fileType :=
  ⟨rfl, rfl⟩

/-- C6: after the close handler the container is the loading placeholder, for
every prior page; so is it after any sequence of open and close events that
ends with a close event, whatever the earlier events carried. -/
theorem onHide_placeholder (page : Page) (events : List ModalEvent) :
    (onHide page).2.previewContainer =
      "<p class=\"text-muted mt-5\">Carregando preview...</p>" ∧
    (runEvents (events ++ [ModalEvent.hideBsModal]) page).previewContainer =
      "<p class=\"text-muted mt-5\">Carregando preview...</p>" := by
  refine ⟨rfl, ?_⟩
  induction events generalizing page with
  | nil => rfl
  | cons e es ih => exact ih (handle e page).2

/-! ## Order of the type tests -/

theorem test_exclusive (fileType : String) (k₁ k₂ : PreviewKind)
    (h₁ : k₁.test fileType = true) (h₂ : k₂.test fileType = true) : k₁ = k₂ := by
  cases k₁ <;> cases k₂ <;> simp only [PreviewKind.test, decide_eq_true_eq] at h₁ h₂
  · rfl
  · exact absurd h₂ (image_not_pdf fileType h₁)
  · rw [image_not_video fileType h₁] at h₂
    exact absurd h₂ (by decide)
  · exact absurd h₁ (image_not_pdf fileType h₂)
  · rfl
  · exact absurd h₁ (video_not_pdf fileType h₂)
  · rw [image_not_video fileType h₂] at h₁
    exact absurd h₁ (by decide)
  · exact absurd h₂ (video_not_pdf fileType h₁)
  · rfl

theorem dispatchInOrder_none (order : List PreviewKind) (fileURL : Option String)
    (fileType : String) (h : ∀ k ∈ order, k.test fileType = false) :
    dispatchInOrder order fileURL fileType = fallbackMarkup fileURL fileType := by
  induction order with
  | nil => rfl
  | cons k ks ih =>
    have hk : k.test fileType = false := h k (List.mem_cons_self k ks)
    simp only [dispatchInOrder, hk, Bool.false_eq_true, if_false]
    exact ih (fun k' hk' => h k' (List.mem_cons_of_mem k hk'))

theorem dispatchInOrder_mem (order : List PreviewKind) (fileURL : Option String)
    (fileType : String) (k : PreviewKind) (hmem : k ∈ order)
    (hk : k.test fileType = true) :
    dispatchInOrder order fileURL fileType = k.markup fileURL fileType := by
  induction order with
  | nil => exact absurd hmem (List.not_mem_nil k)
  | cons k' ks ih =>
    cases hk' : k'.test fileType
    · simp only [dispatchInOrder, hk', Bool.false_eq_true, if_false]
      rcases List.mem_cons.1 hmem with rfl | hin
      · rw [hk] at hk'
        exact absurd hk' (by decide)
      · exact ih hin
    · simp only [dispatchInOrder, hk', if_true]
      rw [test_exclusive fileType k' k hk' hk]

theorem previewContent_eq_dispatch (fileURL : Option String) (fileType : String) :
    previewContent fileURL fileType =
      dispatchInOrder [PreviewKind.image, PreviewKind.pdf, PreviewKind.video]
        fileURL fileType := by
  simp only [previewContent, dispatchInOrder, PreviewKind.test, PreviewKind.markup,
    fallbackMarkup, decide_eq_true_eq]

/-- C7: the three branch conditions are pairwise exclusive on every type string,
and a dispatch that tests them in any order (any permutation of image, pdf,
video) yields the container content the open handler writes with its own
order. -/
theorem dispatch_order_irrelevant (order : List PreviewKind)
    (hperm : order.Perm [PreviewKind.image, PreviewKind.pdf, PreviewKind.video])
    (fileURL : Option String) (fileType : String) (page : Page) :
    (¬ (startsWith fileType "image/" = true ∧ fileType = "application/pdf") ∧
      ¬ (startsWith fileType "image/" = true ∧ startsWith fileType "video/" = true) ∧
      ¬ (fileType = "application/pdf" ∧ startsWith fileType "video/" = true)) ∧
    dispatchInOrder order fileURL fileType =
      (onShow (some ⟨fileURL, some fileType⟩) page).2.previewContainer := by
  refine ⟨⟨fun h => image_not_pdf fileType h.1 h.2, fun h => ?_,
    fun h => video_not_pdf fileType h.2 h.1⟩, ?_⟩
  · have := image_not_video fileType h.1
    rw [h.2] at this
    exact absurd this (by decide)
  · show dispatchInOrder order fileURL fileType = previewContent fileURL fileType
    rw [previewContent_eq_dispatch]
    by_cases hex : ∃ k : PreviewKind, k.test fileType = true
    · obtain ⟨k, hk⟩ := hex
      have hmem : k ∈ [PreviewKind.image, PreviewKind.pdf, PreviewKind.video] := by
        cases k <;> simp
      rw [dispatchInOrder_mem order fileURL fileType k (hperm.mem_iff.2 hmem) hk,
        dispatchInOrder_mem _ fileURL fileType k hmem hk]
    · have hnone : ∀ k : PreviewKind, k.test fileType = false := by
        intro k
        cases hk : k.test fileType
        · rfl
        · exact absurd ⟨k, hk⟩ hex
      rw [dispatchInOrder_none order fileURL fileType (fun k _ => hnone k),
        dispatchInOrder_none _ fileURL fileType (fun k _ => hnone k)]

theorem dispatch_order_irrelevant_witness :
    [PreviewKind.video, PreviewKind.pdf, PreviewKind.image].Perm
      [PreviewKind.image, PreviewKind.pdf, PreviewKind.video] ∧
    ((¬ (startsWith "video/mp4" "image/" = true ∧ "video/mp4" = "application/pdf") ∧
      ¬ (startsWith "video/mp4" "image/" = true ∧ startsWith "video/mp4" "video/" = true) ∧
      ¬ ("video/mp4" = "application/pdf" ∧ startsWith "video/mp4" "video/" = true)) ∧
    dispatchInOrder [PreviewKind.video, PreviewKind.pdf, PreviewKind.image]
        (some "/files/v.mp4") "video/mp4" =
      (onShow (some ⟨some "/files/v.mp4", some "video/mp4"⟩) ⟨"old", "t"⟩).2.previewContainer) :=
  ⟨by decide, dispatch_order_irrelevant [PreviewKind.video, PreviewKind.pdf, PreviewKind.image]
    (by decide) (some "/files/v.mp4") "video/mp4" ⟨"old", "t"⟩⟩

/-! ## Malformed types -/

/-- C8, as stated, fails: the type `image/` has an empty subtype, so it is not a
well-formed supported type, yet the open handler renders the `img` template
for it and not the fallback content. -/
theorem malformed_image_type_not_fallback :
    wellFormedSupported "image/" = false ∧
    (onShow (some (buttonOf "/files/a" "image/")) ⟨"old", "t"⟩).2.previewContainer =
      "<img src=\"/files/a\" class=\"img-fluid rounded\" alt=\"Pré-visualização da Imagem\" style=\"max-height: 100%; max-width: 100%;\">" ∧
    (onShow (some (buttonOf "/files/a" "image/")) ⟨"old", "t"⟩).2.previewContainer ≠
      fallbackMarkup (some "/files/a") "image/" := by
  decide

/-- C8, amended: the open handler renders the fallback content exactly for the
type strings that neither start with `image/`, nor are `application/pdf`, nor
start with `video/`; what follows the prefix is not examined. -/
theorem onShow_fallback_iff (fileURL fileType : String) (page : Page) :
    (onShow (some (buttonOf fileURL fileType)) page).2.previewContainer =
        fallbackMarkup (some fileURL) fileType ↔
      (startsWith fileType "image/" = false ∧ fileType ≠ "application/pdf" ∧
        startsWith fileType "video/" = false) := by
  show previewContent (some fileURL) fileType = fallbackMarkup (some fileURL) fileType ↔ _
  constructor
  · intro h
    cases hi : startsWith fileType "image/"
    · by_cases hp : fileType = "application/pdf"
      · exfalso
        subst hp
        have hd := congrArg String.data h
        simp [previewContent, fallbackMarkup, toJSString, pdf_not_image] at hd
      · cases hv : startsWith fileType "video/"
        · exact ⟨rfl, hp, rfl⟩
        · exfalso
          have hd := congrArg String.data h
          simp [previewContent, fallbackMarkup, toJSString, hi, hp, hv] at hd
    · exfalso
      have hd := congrArg String.data h
      simp [previewContent, fallbackMarkup, toJSString, hi] at hd
  · rintro ⟨hi, hp, hv⟩
    simp only [previewContent, fallbackMarkup, hi, hp, hv, if_false, Bool.false_eq_true]

/-! ## Unescaped substitution -/

/-- C9: the URL is substituted verbatim.  For every URL string that contains a
double quote and every type string starting with `image/`, the `src` value
delimited in the rendered content is the part of the URL before its first
double quote, which is not the URL. -/
theorem onShow_image_src_cut (fileURL fileType : String) (page : Page)
    (h : startsWith fileType "image/" = true) (hq : dquote ∈ fileURL.data) :
    srcAttribute (onShow (some (buttonOf fileURL fileType)) page).2.previewContainer =
        some ⟨fileURL.data.takeWhile (fun c => c != dquote)⟩ ∧
    srcAttribute (onShow (some (buttonOf fileURL fileType)) page).2.previewContainer ≠
        some fileURL := by
  have hsrc : srcAttribute (onShow (some (buttonOf fileURL fileType)) page).2.previewContainer =
      some ⟨fileURL.data.takeWhile (fun c => c != dquote)⟩ := by
    simp only [onShow, buttonOf, previewContent, toJSString, h, if_true, srcAttribute,
      String.data_append]
    have hcut : afterFirst "src=\"".data
        ("<img src=\"".data ++ fileURL.data ++ "\" class=\"img-fluid rounded\" alt=\"Pré-visualização da Imagem\" style=\"max-height: 100%; max-width: 100%;\">".data) =
        some (fileURL.data ++ dquote :: " class=\"img-fluid rounded\" alt=\"Pré-visualização da Imagem\" style=\"max-height: 100%; max-width: 100%;\">".data) := by
      simp [afterFirst, List.isPrefixOf]
      rfl
    rw [hcut, Option.some_bind, upToQuote_append]
    rfl
  refine ⟨hsrc, ?_⟩
  rw [hsrc]
  intro heq
  have hd := congrArg String.data (Option.some.inj heq)
  exact takeWhile_ne_of_mem fileURL.data hq hd

theorem onShow_image_src_cut_witness :
    (startsWith "image/png" "image/" = true ∧ dquote ∈ "x\" onerror=\"alert(1)".data) ∧
    (srcAttribute (onShow (some (buttonOf "x\" onerror=\"alert(1)" "image/png"))
        ⟨"old", "t"⟩).2.previewContainer =
        some ⟨"x\" onerror=\"alert(1)".data.takeWhile (fun c => c != dquote)⟩ ∧
    srcAttribute (onShow (some (buttonOf "x\" onerror=\"alert(1)" "image/png"))
        ⟨"old", "t"⟩).2.previewContainer ≠ some "x\" onerror=\"alert(1)") :=
  ⟨⟨by decide, by decide⟩,
    onShow_image_src_cut "x\" onerror=\"alert(1)" "image/png" ⟨"old", "t"⟩
      (by decide) (by decide)⟩

/-! ## Missing type attribute -/

theorem previewContent_ne_empty (fileURL : Option String) (fileType : String) :
    previewContent fileURL fileType ≠ "" := by
  intro h
  have hd := congrArg String.data h
  unfold previewContent at hd
  split_ifs at hd <;> simp at hd

/-- C10: when the type attribute read yields `null`, for every URL attribute
value and every prior page the open handler throws a `TypeError` after it has
emptied the container and set the title to `Visualizando: null`; the
container is left empty, which is none of the preview templates and not the
loading placeholder. -/
theorem onShow_null_type (fileURL : Option String) (page : Page) :
    onShow (some ⟨fileURL, none⟩) page =
      (Completion.typeError, ⟨"", "Visualizando: null"⟩) ∧
    (∀ (u : Option String) (t : String),
      (onShow (some ⟨fileURL, none⟩) page).2.previewContainer ≠ previewContent u t) ∧
    (onShow (some ⟨fileURL, none⟩) page).2.previewContainer ≠
      (onHide page).2.previewContainer := by
  refine ⟨rfl, fun u t h => previewContent_ne_empty u t h.symm, ?_⟩
  show ("" : String) ≠ "<p class=\"text-muted mt-5\">Carregando preview...</p>"
  decide

end FilePreview
